import Mathlib

/-!
Shallow embedding of the conversational core of src/hinachat.py: the
per-conversation history buffer, the prompt assembler, and the two
error-absorbing HTTP fetchers, together with proofs of the specified
properties.  Network calls are modelled by universally quantified outcome
values describing what the environment returns; everything the program
itself computes is translated directly from the source.
-/

namespace HinaChat

/-- A chat message as stored in the per-conversation history list: a Python
dict with keys role and content (src/hinachat.py lines 48-53, 72). -/
structure Message where
  role : String
  content : String
deriving DecidableEq

/-- The lazily inserted system priming message (src/hinachat.py lines 48-51). -/
def systemMessage : Message :=
  Message.mk "system"
    "You are Hinata Hyuga from Naruto Shippuden: shy, kind, and supportive. Respond like a caring friend."

/-- Python trailing slice l[-n:]: the last n elements of the list, or the
whole list when it is shorter than n. -/
def lastN {α : Type} (n : Nat) (l : List α) : List α :=
  l.drop (l.length - n)

/-- Python str.join with the given separator: the empty string on an empty
list, otherwise the elements interleaved with the separator. -/
def joinSep (sep : String) : List String → String
  | [] => ""
  | [a] => a
  | a :: b :: rest => a ++ sep ++ joinSep sep (b :: rest)

/-- One line of the prompt, as produced by the generator expression on
line 55 of src/hinachat.py. -/
def renderMessage (m : Message) : String :=
  m.role ++ ": " ++ m.content

/-- The prompt assembler (src/hinachat.py lines 54-56): the last 10 history
entries rendered and newline-joined, followed by the f-string suffix that
appends a newline and the final user line. -/
def buildPrompt (history : List Message) (user_input : String) : String :=
  joinSep "\n" ((lastN 10 history).map renderMessage) ++ "\nuser: " ++ user_input

/-- Response.raise_for_status of the requests library raises HTTPError
exactly for status codes 400-599 (client and server errors); informational,
success and redirect status codes pass through without raising. -/
def raiseForStatusFails (status : Nat) : Bool :=
  decide (400 ≤ status) && decide (status < 600)

/-- Behaviour of the trivia response body under the two observations the
source makes of it (line 31): resp.json raises on an unparseable body;
the .get lookup raises AttributeError on a non-dict value and otherwise
yields the value of the question key, or the default when absent. -/
inductive TriviaJson where
  | malformed : TriviaJson
  | nonDict : TriviaJson
  | dict : Option String → TriviaJson
deriving DecidableEq

/-- Outcome of one requests.get call to the trivia endpoint: either the call
itself raises (connection failure and the like), or a response with an HTTP
status code and a body arrives. -/
inductive TriviaOutcome where
  | transportError : TriviaOutcome
  | response : Nat → TriviaJson → TriviaOutcome
deriving DecidableEq

/-- The fallback string of the except branch of fetch_online (line 33). -/
def triviaFallback : String :=
  "Sorry, I couldn\x27t fetch a question at the moment."

/-- The default returned by the .get lookup when the question key is absent
(line 31). -/
def triviaDefault : String :=
  "Hmm... I have no question right now."

/-- The try-block of fetch_online (lines 28-31) as a fallible computation:
requests.get, raise_for_status, json parsing and the field lookup in
sequence, each possible Python exception modelled as an error value. -/
def fetchOnlineBody (outcome : TriviaOutcome) : Except String String :=
  match outcome with
  | TriviaOutcome.transportError => Except.error "RequestException"
  | TriviaOutcome.response status body =>
    if raiseForStatusFails status then Except.error "HTTPError"
    else
      match body with
      | TriviaJson.malformed => Except.error "JSONDecodeError"
      | TriviaJson.nonDict => Except.error "AttributeError"
      | TriviaJson.dict question => Except.ok (question.getD triviaDefault)

/-- fetch_online (src/hinachat.py lines 27-33): the try-block with every
exception converted to the fixed fallback string.  Totality of this
function is the never-raises guarantee.  The category argument only selects
the request URL; what comes back is the separate outcome argument. -/
def fetch_online (category : String) (outcome : TriviaOutcome) : String :=
  match fetchOnlineBody outcome with
  | Except.ok s => s
  | Except.error _ => triviaFallback

/-- Behaviour of the generation response body under the observation the
source makes of it (line 67): response.json raises on an unparseable body;
the nested subscript chain candidates 0 content parts 0 text raises when
some level is missing, and otherwise yields the text string. -/
inductive GeminiJson where
  | malformed : GeminiJson
  | missingField : GeminiJson
  | text : String → GeminiJson
deriving DecidableEq

/-- Outcome of one requests.post call to the generation endpoint. -/
inductive GeminiOutcome where
  | transportError : GeminiOutcome
  | response : Nat → GeminiJson → GeminiOutcome
deriving DecidableEq

/-- The fallback string of the except branch of query_gemini (line 70). -/
def geminiFallback : String :=
  "Sorry... I can\x27t think of a good reply right now."

/-- The try-block of query_gemini (lines 65-67) as a fallible computation:
requests.post, raise_for_status and the nested field extraction in sequence,
each possible Python exception modelled as an error value. -/
def generateReplyBody (outcome : GeminiOutcome) : Except String String :=
  match outcome with
  | GeminiOutcome.transportError => Except.error "RequestException"
  | GeminiOutcome.response status body =>
    if raiseForStatusFails status then Except.error "HTTPError"
    else
      match body with
      | GeminiJson.malformed => Except.error "JSONDecodeError"
      | GeminiJson.missingField => Except.error "KeyError"
      | GeminiJson.text s => Except.ok s

/-- The try-except of query_gemini, lines 64-70: the reply is the extracted
text on success and the fixed fallback string on any exception. -/
def generate_reply (outcome : GeminiOutcome) : String :=
  match generateReplyBody outcome with
  | Except.ok s => s
  | Except.error _ => geminiFallback

/-- History priming and the user append, lines 46-53: the stored history,
with the system message appended first when the stored history is empty,
then the user message appended. -/
def queryGeminiHistory (stored : List Message) (user_input : String) : List Message :=
  (if stored.isEmpty then stored ++ [systemMessage] else stored)
    ++ [Message.mk "user" user_input]

/-- The prompt query_gemini assembles on lines 54-56, as a function of the
stored history and the user input. -/
def queryGeminiPrompt (stored : List Message) (user_input : String) : String :=
  buildPrompt (queryGeminiHistory stored user_input) user_input

/-- One full query_gemini call (src/hinachat.py lines 45-74) as a state
transition on the stored history: the system message is inserted lazily, the
user message appended, the reply obtained (or replaced by the fallback), the
assistant message appended, and the trailing 20-entry slice stored back.
Returns the reply together with the new stored history. -/
def query_gemini (stored : List Message) (user_input : String)
    (outcome : GeminiOutcome) : String × List Message :=
  let history := queryGeminiHistory stored user_input
  let reply := generate_reply outcome
  (reply, lastN 20 (history ++ [Message.mk "assistant" reply]))

/-- The stored history after one handled update. -/
def updateHistory (stored : List Message) (user_input : String)
    (outcome : GeminiOutcome) : List Message :=
  (query_gemini stored user_input outcome).2

/-- Iterating query_gemini over a sequence of updates, each a user input
paired with the generation-endpoint outcome the environment produces for
it, starting from a given stored history. -/
def runUpdates (stored : List Message) : List (String × GeminiOutcome) → List Message
  | [] => stored
  | u :: rest => runUpdates (updateHistory stored u.1 u.2) rest

/-- The append-and-trim operation of the spec: the append on line 72
composed with the trailing-slice assignment on line 73. -/
def append_and_trim (history : List Message) (role content : String) : List Message :=
  lastN 20 (history ++ [Message.mk role content])

/-- The last newline-separated line of a string: everything after the final
newline character, or the whole string when it has none. -/
def lastLine (s : String) : String :=
  String.mk ((s.data.reverse.takeWhile (fun c => c != '\n')).reverse)

/-- The user input the truth handler passes to query_gemini
(src/hinachat.py lines 106-107). -/
def truthInput (outcome : TriviaOutcome) : String :=
  "Truth question: " ++ fetch_online "truth" outcome

/-- The trivia-call outcomes in which some step of the try-block of
fetch_online raises: a transport failure, a 4xx or 5xx status, or a body
that is unparseable or not a JSON object. -/
def triviaFailure (outcome : TriviaOutcome) : Prop :=
  outcome = TriviaOutcome.transportError ∨
    ∃ status body, outcome = TriviaOutcome.response status body ∧
      ((400 ≤ status ∧ status < 600) ∨
        body = TriviaJson.malformed ∨ body = TriviaJson.nonDict)

/-- The generation-call outcomes in which some step of the try-block of
query_gemini raises: a transport failure, a 4xx or 5xx status, or a body
that is unparseable or lacks the nested text field. -/
def geminiFailure (outcome : GeminiOutcome) : Prop :=
  outcome = GeminiOutcome.transportError ∨
    ∃ status body, outcome = GeminiOutcome.response status body ∧
      ((400 ≤ status ∧ status < 600) ∨
        body = GeminiJson.malformed ∨ body = GeminiJson.missingField)

/-- The head invariant carried through update sequences: a nonempty stored
history strictly below the 20-entry cap starts with the system message. -/
def HeadIsSystem (stored : List Message) : Prop :=
  stored ≠ [] → stored.length < 20 → stored.head? = some systemMessage

/-! ## Helper lemmas -/

lemma lastN_length_le {α : Type} (n : Nat) (l : List α) : (lastN n l).length ≤ n := by
  simp only [lastN, List.length_drop]
  omega

lemma lastN_of_length_le {α : Type} {n : Nat} {l : List α} (h : l.length ≤ n) :
    lastN n l = l := by
  simp [lastN, Nat.sub_eq_zero_of_le h]

lemma lastN_concat {α : Type} (n : Nat) (hn : 1 ≤ n) (l : List α) (x : α) :
    lastN n (l ++ [x]) = l.drop (l.length + 1 - n) ++ [x] := by
  have hk : l.length + 1 - n ≤ l.length := by omega
  simp only [lastN, List.length_append, List.length_singleton,
    List.drop_append_eq_append_drop, Nat.sub_eq_zero_of_le hk, List.drop_zero]

lemma lastN_concat_getLast? {α : Type} (n : Nat) (hn : 1 ≤ n) (l : List α) (x : α) :
    (lastN n (l ++ [x])).getLast? = some x := by
  rw [lastN_concat n hn l x]
  exact List.getLast?_concat _

lemma joinSep_append_singleton (sep x : String) (l : List String) (hl : l ≠ []) :
    joinSep sep (l ++ [x]) = joinSep sep l ++ sep ++ x := by
  induction l with
  | nil => exact absurd rfl hl
  | cons a rest ih =>
    cases rest with
    | nil => rfl
    | cons b rest2 =>
      have ih2 := ih (by simp)
      show a ++ sep ++ joinSep sep ((b :: rest2) ++ [x])
          = a ++ sep ++ joinSep sep (b :: rest2) ++ sep ++ x
      rw [ih2]
      simp [String.append_assoc]

lemma takeWhile_append_of_forall {p : Char → Bool} (l₁ l₂ : List Char)
    (h : ∀ c ∈ l₁, p c = true) :
    (l₁ ++ l₂).takeWhile p = l₁ ++ l₂.takeWhile p := by
  induction l₁ with
  | nil => rfl
  | cons a t ih =>
    have ha := h a (by simp)
    simp only [List.cons_append, List.takeWhile_cons, ha, if_true]
    exact congrArg (List.cons a) (ih (fun c hc => h c (by simp [hc])))

lemma lastLine_concat (a b : String) (hb : ∀ c ∈ b.data, c ≠ '\n') :
    lastLine (a ++ "\n" ++ b) = b := by
  have hdata : (a ++ "\n" ++ b).data = a.data ++ '\n' :: b.data := by
    simp [String.data_append]
  have hp : ∀ c ∈ b.data.reverse, (c != '\n') = true := by
    intro c hc
    simpa using hb c (List.mem_reverse.mp hc)
  have hrev : (a.data ++ '\n' :: b.data).reverse
      = b.data.reverse ++ '\n' :: a.data.reverse := by
    simp
  rw [lastLine, hdata, hrev, takeWhile_append_of_forall _ _ hp]
  have : List.takeWhile (fun c => c != '\n') ('\n' :: a.data.reverse) = [] := by
    simp [List.takeWhile_cons]
  rw [this, List.append_nil, List.reverse_reverse]

lemma buildPrompt_eq (history : List Message) (input : String) :
    buildPrompt history input
      = joinSep "\n" ((lastN 10 history).map renderMessage) ++ "\n"
          ++ ("user: " ++ input) := by
  have h1 : ("\nuser: " : String) = "\n" ++ "user: " := rfl
  rw [buildPrompt, h1,
    ← String.append_assoc (joinSep "\n" ((lastN 10 history).map renderMessage)) "\n" "user: ",
    String.append_assoc]

lemma buildPrompt_suffix (history : List Message) (input : String) :
    ∃ pre, buildPrompt history input = pre ++ ("user: " ++ input) := by
  exact ⟨joinSep "\n" ((lastN 10 history).map renderMessage) ++ "\n",
    by rw [buildPrompt_eq, String.append_assoc]⟩

lemma buildPrompt_lastLine (history : List Message) (input : String)
    (h : ∀ c ∈ input.data, c ≠ '\n') :
    lastLine (buildPrompt history input) = "user: " ++ input := by
  rw [buildPrompt_eq]
  apply lastLine_concat
  intro c hc
  rw [String.data_append] at hc
  rcases List.mem_append.mp hc with hc | hc
  · intro heq
    subst heq
    simp at hc
  · exact h c hc

lemma queryGeminiHistory_ne_nil (stored : List Message) (input : String) :
    queryGeminiHistory stored input ≠ [] := by
  unfold queryGeminiHistory
  cases stored.isEmpty <;> simp

/-- The primed history (before the user append) is never empty. -/
lemma primed_ne_nil (stored : List Message) :
    (if stored.isEmpty then stored ++ [systemMessage] else stored) ≠ [] := by
  cases stored <;> simp

lemma fetch_online_of_failure (category : String) {outcome : TriviaOutcome}
    (h : triviaFailure outcome) :
    fetch_online category outcome = triviaFallback := by
  rcases h with h | ⟨status, body, rfl, hcond⟩
  · subst h
    rfl
  · rcases hcond with ⟨h4, h6⟩ | hb | hb
    · have hrs : raiseForStatusFails status = true := by
        simp only [raiseForStatusFails, Bool.and_eq_true, decide_eq_true_eq]
        omega
      simp [fetch_online, fetchOnlineBody, hrs]
    · subst hb
      cases hrs : raiseForStatusFails status <;>
        simp [fetch_online, fetchOnlineBody, hrs]
    · subst hb
      cases hrs : raiseForStatusFails status <;>
        simp [fetch_online, fetchOnlineBody, hrs]

lemma generate_reply_of_failure {outcome : GeminiOutcome}
    (h : geminiFailure outcome) :
    generate_reply outcome = geminiFallback := by
  rcases h with h | ⟨status, body, rfl, hcond⟩
  · subst h
    rfl
  · rcases hcond with ⟨h4, h6⟩ | hb | hb
    · have hrs : raiseForStatusFails status = true := by
        simp only [raiseForStatusFails, Bool.and_eq_true, decide_eq_true_eq]
        omega
      simp [generate_reply, generateReplyBody, hrs]
    · subst hb
      cases hrs : raiseForStatusFails status <;>
        simp [generate_reply, generateReplyBody, hrs]
    · subst hb
      cases hrs : raiseForStatusFails status <;>
        simp [generate_reply, generateReplyBody, hrs]

/-- Structure of the assembled prompt: since the user message has already
been appended to the history before the 10-entry window is taken, the
rendered window ends with the user line, and the f-string then appends the
same user line once more. -/
lemma queryGeminiPrompt_double (stored : List Message) (input : String) :
    ∃ pre, queryGeminiPrompt stored input
      = pre ++ ("user: " ++ input ++ "\n" ++ ("user: " ++ input)) := by
  have hp : (if stored.isEmpty then stored ++ [systemMessage] else stored) ≠ [] :=
    primed_ne_nil stored
  have hlen : 1 ≤ (if stored.isEmpty then stored ++ [systemMessage] else stored).length :=
    List.length_pos.mpr hp
  generalize hP : (if stored.isEmpty then stored ++ [systemMessage] else stored) = P at hp hlen
  have hhist : queryGeminiHistory stored input = P ++ [Message.mk "user" input] := by
    unfold queryGeminiHistory
    rw [hP]
  have hrecent : lastN 10 (P ++ [Message.mk "user" input])
      = P.drop (P.length + 1 - 10) ++ [Message.mk "user" input] :=
    lastN_concat 10 (by omega) P _
  have hdropne : P.drop (P.length + 1 - 10) ≠ [] := by
    have hpos : 0 < (P.drop (P.length + 1 - 10)).length := by
      rw [List.length_drop]
      omega
    exact List.length_pos.mp hpos
  have hmapne : (P.drop (P.length + 1 - 10)).map renderMessage ≠ [] := by
    simpa using hdropne
  have hmap : (lastN 10 (P ++ [Message.mk "user" input])).map renderMessage
      = (P.drop (P.length + 1 - 10)).map renderMessage ++ ["user: " ++ input] := by
    rw [hrecent, List.map_append]
    rfl
  have hjoin : joinSep "\n" ((lastN 10 (P ++ [Message.mk "user" input])).map renderMessage)
      = joinSep "\n" ((P.drop (P.length + 1 - 10)).map renderMessage) ++ "\n"
          ++ ("user: " ++ input) := by
    rw [hmap, joinSep_append_singleton _ _ _ hmapne]
  refine ⟨joinSep "\n" ((P.drop (P.length + 1 - 10)).map renderMessage) ++ "\n", ?_⟩
  unfold queryGeminiPrompt
  rw [hhist, buildPrompt_eq, hjoin]
  simp only [String.append_assoc]

lemma headIsSystem_update (stored : List Message) (i : String) (o : GeminiOutcome)
    (h : HeadIsSystem stored) : HeadIsSystem (updateHistory stored i o) := by
  have hupd : updateHistory stored i o
      = lastN 20 (queryGeminiHistory stored i
          ++ [Message.mk "assistant" (generate_reply o)]) := rfl
  cases stored with
  | nil =>
    intro _ _
    rw [hupd]
    rfl
  | cons m rest =>
    have hhist : queryGeminiHistory (m :: rest) i
          ++ [Message.mk "assistant" (generate_reply o)]
        = m :: (rest ++ [Message.mk "user" i]
            ++ [Message.mk "assistant" (generate_reply o)]) := by
      simp [queryGeminiHistory]
    by_cases hle : rest.length + 3 ≤ 20
    · intro _ hlt
      rw [hupd, hhist, lastN_of_length_le (by simp; omega)] at hlt ⊢
      have hlen : rest.length + 3 < 20 := by
        simp at hlt
        omega
      have hh := h (by simp) (by simp; omega)
      simpa using hh
    · intro _ hlt
      rw [hupd, hhist] at hlt
      have h20 : (lastN 20 (m :: (rest ++ [Message.mk "user" i]
          ++ [Message.mk "assistant" (generate_reply o)]))).length = 20 := by
        simp [lastN, List.length_drop]
        omega
      omega

lemma headIsSystem_runUpdates (updates : List (String × GeminiOutcome)) :
    ∀ stored : List Message,
      HeadIsSystem stored → HeadIsSystem (runUpdates stored updates) := by
  induction updates with
  | nil => exact fun stored h => h
  | cons u rest ih =>
    intro stored h
    exact ih _ (headIsSystem_update stored u.1 u.2 h)

/-! ## Claim theorems -/

/-- C1: for every conversation state and every handled update, the stored
per-conversation history has length at most 20 after the update completes:
the trailing slice assignment after the assistant reply is appended enforces
the cap, so the bound holds after each update of every update sequence. -/
theorem history_cap_after_update (stored : List Message) (user_input : String)
    (outcome : GeminiOutcome) :
    (updateHistory stored user_input outcome).length ≤ 20 :=
  lastN_length_le 20 _

/-- C2 counterexample: after ten handled updates from the empty history the
stored history is nonempty, yet its first element is not the system priming
message: the tenth update pushes the buffer past the 20-entry cap, the
trailing slice evicts the system entry, and it is never re-inserted because
the history is no longer empty. -/
theorem system_head_evicted_cex :
    runUpdates [] (List.replicate 10 ("x", GeminiOutcome.transportError)) ≠ [] ∧
    (runUpdates [] (List.replicate 10 ("x", GeminiOutcome.transportError))).head?
      ≠ some systemMessage := by
  decide

/-- C2 amended: along every update sequence from the empty history, whenever
the stored history is nonempty and its length is still strictly below the
20-entry cap, its first element is the single system-role priming message
(inserted lazily on the first query); once the buffer reaches the cap the
system message can be evicted by the trailing slice and is not re-inserted. -/
theorem system_head_below_cap (updates : List (String × GeminiOutcome))
    (hne : runUpdates [] updates ≠ [])
    (hlt : (runUpdates [] updates).length < 20) :
    (runUpdates [] updates).head? = some systemMessage :=
  headIsSystem_runUpdates updates [] (fun h _ => absurd rfl h) hne hlt

theorem system_head_below_cap_witness :
    (runUpdates [] [("hi", GeminiOutcome.transportError)]).head? = some systemMessage :=
  system_head_below_cap [("hi", GeminiOutcome.transportError)] (by decide) (by decide)

/-- C5 counterexample: on the empty history and input hi the assembler does
not produce the bare final line: the f-string contributes a leading newline
before the user line even when the joined window is empty. -/
theorem empty_history_prompt_cex : buildPrompt [] "hi" ≠ "user: hi" := by
  decide

/-- C5 amended: on the empty history and input hi the assembler output is
the final user line preceded by a leading newline; moreover in the full
pipeline the history is never empty at assembly time, because the system
priming message and the user message are appended before the window is
taken, so the actual prompt for an empty stored history is the system line,
the user line, and the duplicated final user line. -/
theorem empty_history_prompt_value :
    buildPrompt [] "hi" = "\nuser: hi" ∧
    queryGeminiPrompt [] "hi"
      = "system: " ++ systemMessage.content ++ "\nuser: hi\nuser: hi" := by
  exact ⟨rfl, rfl⟩

/-- C7: appending one entry to a 25-entry history through append-and-trim
yields a buffer of length exactly 20 holding the most recent 20 entries,
that is, the 6 oldest entries are dropped from the front. -/
theorem append_and_trim_25 (history : List Message) (role content : String)
    (h : history.length = 25) :
    (append_and_trim history role content).length = 20 ∧
    append_and_trim history role content
      = (history ++ [Message.mk role content]).drop 6 := by
  constructor
  · simp [append_and_trim, lastN, List.length_drop, h]
  · simp [append_and_trim, lastN, h]

theorem append_and_trim_25_witness :
    append_and_trim (List.replicate 25 (Message.mk "u" "m")) "user" "new"
      = (List.replicate 25 (Message.mk "u" "m") ++ [Message.mk "user" "new"]).drop 6 :=
  (append_and_trim_25 _ "user" "new" (by decide)).2

/-- C3 counterexample: a redirect status is not a 2xx status, yet with a
parseable object body fetch_online returns the question, not the fallback:
raise_for_status of the requests library only raises for 4xx and 5xx status
codes, so a 301 response with a question passes straight through. -/
theorem fetch_online_redirect_cex :
    fetch_online "truth" (TriviaOutcome.response 301 (TriviaJson.dict (some "ok"))) = "ok" ∧
    "ok" ≠ triviaFallback := by
  decide

/-- C3 amended: for every category and every trivia-endpoint outcome that is
a transport failure, a 4xx or 5xx status, or a malformed or non-object JSON
body, fetch_online returns the fixed fallback string and never raises;
statuses outside 400-599 are not treated as errors by raise_for_status, so
a non-2xx status such as 301 with a well-formed body is not converted. -/
theorem fetch_online_failure_fallback (category : String) (outcome : TriviaOutcome)
    (h : triviaFailure outcome) :
    fetch_online category outcome = triviaFallback :=
  fetch_online_of_failure category h

theorem fetch_online_failure_fallback_witness :
    fetch_online "truth" TriviaOutcome.transportError = triviaFallback :=
  fetch_online_failure_fallback "truth" TriviaOutcome.transportError (Or.inl rfl)

/-- C4 counterexample: a redirect status is not a 2xx status, yet with a
body carrying the nested text field the generation call returns that text,
not the fallback, because raise_for_status only raises for 4xx and 5xx. -/
theorem generate_reply_redirect_cex :
    generate_reply (GeminiOutcome.response 301 (GeminiJson.text "ok")) = "ok" ∧
    "ok" ≠ geminiFallback := by
  decide

/-- C4 amended: for every generation-endpoint outcome that is a transport
failure, a 4xx or 5xx status, or a JSON body that is unparseable or lacks
the nested candidates-content-parts-text field, the reply is the fixed
fallback string and no exception escapes; statuses outside 400-599 are not
treated as errors by raise_for_status, so a non-2xx status such as 301 with
the nested field present is not converted. -/
theorem generate_reply_failure_fallback (outcome : GeminiOutcome)
    (h : geminiFailure outcome) :
    generate_reply outcome = geminiFallback :=
  generate_reply_of_failure h

theorem generate_reply_failure_fallback_witness :
    generate_reply GeminiOutcome.transportError = geminiFallback :=
  generate_reply_failure_fallback GeminiOutcome.transportError (Or.inl rfl)

/-- C6 counterexample: when the user input itself contains a newline, the
final user line is not the last newline-separated line of the assembled
prompt: for input consisting of a, a newline and b, the last line is just b. -/
theorem prompt_last_line_cex :
    lastLine (buildPrompt [] "a\nb") = "b" ∧ "b" ≠ "user: " ++ "a\nb" := by
  decide

/-- C6 amended: for every history and every user input the assembled prompt
ends with the string made of the prefix user-colon-space followed by the
input; when the input contains no newline character this suffix is moreover
the last newline-separated line of the prompt. -/
theorem prompt_ends_with_user_line (history : List Message) (input : String) :
    (∃ pre, buildPrompt history input = pre ++ ("user: " ++ input)) ∧
    ((∀ c ∈ input.data, c ≠ '\n') →
      lastLine (buildPrompt history input) = "user: " ++ input) :=
  ⟨buildPrompt_suffix history input, buildPrompt_lastLine history input⟩

theorem prompt_ends_with_user_line_witness :
    lastLine (buildPrompt [] "hi") = "user: " ++ "hi" :=
  (prompt_ends_with_user_line [] "hi").2 (by decide)

/-- C8: when the trivia endpoint answers the truth request with status 200
and a JSON object whose question field is Have you ever lied?, the truth
handler invokes the reply-generation pipeline with exactly the user input
Truth question: Have you ever lied?, and for every stored history the
assembled prompt contains that string as a substring. -/
theorem truth_prompt_contains_question (stored : List Message) :
    truthInput (TriviaOutcome.response 200 (TriviaJson.dict (some "Have you ever lied?")))
      = "Truth question: Have you ever lied?" ∧
    ∃ pre post,
      queryGeminiPrompt stored
          (truthInput (TriviaOutcome.response 200 (TriviaJson.dict (some "Have you ever lied?"))))
        = pre ++ "Truth question: Have you ever lied?" ++ post := by
  have hT : truthInput (TriviaOutcome.response 200 (TriviaJson.dict (some "Have you ever lied?")))
      = "Truth question: Have you ever lied?" := rfl
  refine ⟨hT, ?_⟩
  obtain ⟨pre0, hpre⟩ := buildPrompt_suffix
    (queryGeminiHistory stored
      (truthInput (TriviaOutcome.response 200 (TriviaJson.dict (some "Have you ever lied?")))))
    (truthInput (TriviaOutcome.response 200 (TriviaJson.dict (some "Have you ever lied?"))))
  refine ⟨pre0 ++ "user: ", "", ?_⟩
  rw [String.append_empty]
  have hq : queryGeminiPrompt stored
        (truthInput (TriviaOutcome.response 200 (TriviaJson.dict (some "Have you ever lied?"))))
      = pre0 ++ ("user: "
          ++ truthInput (TriviaOutcome.response 200 (TriviaJson.dict (some "Have you ever lied?")))) :=
    hpre
  rw [hq, hT, ← String.append_assoc]

/-- C9: because the user message is appended to the history before the
10-entry window is taken, the assembled prompt always contains the current
user line twice in a row: once as the last rendered window line and once as
the appended final line, separated by one newline. -/
theorem prompt_duplicates_user_line (stored : List Message) (input : String) :
    ∃ pre, queryGeminiPrompt stored input
      = pre ++ ("user: " ++ input ++ "\n" ++ ("user: " ++ input)) :=
  queryGeminiPrompt_double stored input

/-- C10: after every query_gemini call, whatever the generation outcome, the
last element of the stored history is an assistant-role entry whose content
is the returned reply; in particular, when the call fails the fixed fallback
sentence itself is recorded into the conversation history. -/
theorem history_last_is_assistant_reply (stored : List Message) (input : String)
    (outcome : GeminiOutcome) :
    (updateHistory stored input outcome).getLast?
      = some (Message.mk "assistant" (query_gemini stored input outcome).1) ∧
    (geminiFailure outcome →
      (updateHistory stored input outcome).getLast?
        = some (Message.mk "assistant" geminiFallback)) := by
  have hlast : (updateHistory stored input outcome).getLast?
      = some (Message.mk "assistant" (generate_reply outcome)) :=
    lastN_concat_getLast? 20 (by omega) (queryGeminiHistory stored input)
      (Message.mk "assistant" (generate_reply outcome))
  refine ⟨hlast, fun hf => ?_⟩
  rw [hlast, generate_reply_of_failure hf]

theorem history_last_is_assistant_reply_witness :
    (updateHistory [] "hi" GeminiOutcome.transportError).getLast?
      = some (Message.mk "assistant" geminiFallback) :=
  (history_last_is_assistant_reply [] "hi" GeminiOutcome.transportError).2 (Or.inl rfl)

end HinaChat
